import Mathlib

/-!
Shallow embedding of the approval-decision engine of the repository
(`src/services/approval_rules.py`): the document classifier
`classify_document_type` and the evaluator `InvoiceApprovalRules.evaluate`,
together with the configuration and decision data model.

Modelling conventions:
* Python `float` amounts and confidences are embedded as `ℚ`.
* Python `Optional[str]` is `Option String`; Python truthiness of an
  optional string (`if not text`) is `pyFalsy`.
* Python substring membership `sub in t` is `containsSub t sub`.
* Python `str.lower()` is `strLower`; all cue literals are ASCII.
* The Python `dict` `checks` (insertion ordered) is a `List (String × Bool)`.
* Python `f"{x:.2f}"` / `f"{x:.1%}"` are `fmtFixed 2` / `fmtPct`
  (round half to even at the given number of decimal digits).
* Python `"; ".join(l)` is `joinSep "; " l`.
-/

namespace AdlM365

/-- Python `str.lower()` (ASCII-relevant part). -/
def strLower (s : String) : String := String.mk (s.toList.map Char.toLower)

/-- Test whether the char list `p` is an initial segment of `s`. -/
def listStartsWith : List Char → List Char → Bool
  | _, [] => true
  | [], _ :: _ => false
  | a :: as, b :: bs => a == b && listStartsWith as bs

/-- Test whether the char list `p` occurs contiguously inside `s`. -/
def listContainsSub : List Char → List Char → Bool
  | [], p => listStartsWith [] p
  | a :: as, p => listStartsWith (a :: as) p || listContainsSub as p

/-- Python `sub in t` for strings. -/
def containsSub (t sub : String) : Bool := listContainsSub t.toList sub.toList

/-- Python truthiness test `not x` for an optional string:
true exactly for `None` and the empty string. -/
def pyFalsy : Option String → Bool
  | none => true
  | some s => s.isEmpty

/-- Python `sep.join(l)`. -/
def joinSep (sep : String) : List String → String
  | [] => ""
  | [x] => x
  | x :: y :: xs => x ++ sep ++ joinSep sep (y :: xs)

/-- The classifier's three-way result. -/
inductive DocType
  | invoice
  | receipt
  | unknown
  deriving DecidableEq

/-- The weighted cue score computed by `classify_document_type` on the
lower-cased text `t`, following the source's conditionals in order. -/
def scoreText (t : String) : Int :=
  let has := containsSub t
  let s : Int := 0
  let s := if has "amount due" && !has "$0.00" then s + 3 else s
  let s := if has "balance due" && !has "$0.00" && !has "balance due 0" then s + 3 else s
  let s := if has "total due" && !has "$0.00" then s + 3 else s
  let s := if has "please remit" || has "please pay" || has "payment required" then s + 3 else s
  let s := if has "due date" || has "payment due" then s + 4 else s
  let s := if has "net 30" || has "net 60" || has "due upon receipt" || has "payment terms" then s + 4 else s
  let s := if has "remit to" || has "remit payment" || has "make payment to" then s + 3 else s
  let s := if has "bank details" || has "bsb" || has "account number" || has "eft details" then s + 3 else s
  let s := if has "wire transfer" || has "bpay" || has "direct deposit" then s + 3 else s
  let s := if has "invoice" && !has "receipt" then s + 2 else s
  let s := if has "invoice number" || has "invoice #" || has "invoice no" || has "invoice id" then s + 2 else s
  let s := if has "thank you for your payment" || has "payment received" then s - 3 else s
  let s := if has "amount paid" || has "paid on" || has "date paid" then s - 3 else s
  let s := if has "payment history" || has "transaction history" then s - 3 else s
  let s := if has "your order is complete" || has "we appreciate your business" then s - 3 else s
  let s := if has "$0.00" || has "balance due 0" || has "balance: $0.00" || has "no payment required" then s - 4 else s
  let s := if has "balance due: $0.00" || has "amount due: $0.00" then s - 4 else s
  let s := if has "visa" && (has "****" || has "ending") then s - 3 else s
  let s := if has "mastercard" && (has "****" || has "ending") then s - 3 else s
  let s := if has "direct debit" || has "auto-recharge" || has "autopay" then s - 3 else s
  let s := if has "paypal" || has "stripe" || has "square" then s - 3 else s
  let s := if has "receipt" && !has "invoice" then s - 2 else s
  let s := if has "receipt number" || has "receipt #" || has "receipt no" then s - 2 else s
  let s := if has "tax invoice / receipt" || has "tax receipt" then s - 2 else s
  s

/-- The classifier `classify_document_type` from the source: falsy text is `unknown`;
otherwise the lower-cased text is scored and thresholded at `> 2` / `< -2`. -/
def classify_document_type (text : Option String) : DocType :=
  if pyFalsy text then .unknown
  else
    let t := strLower (text.getD "")
    let score := scoreText t
    if score > 2 then .invoice
    else if score < -2 then .receipt
    else .unknown

/-- The configuration `ApprovalRulesConfig` from the source, with the source's defaults. -/
structure ApprovalRulesConfig where
  amount_threshold : ℚ := 500
  min_confidence : ℚ := mkRat 85 100
  require_invoice_keyword : Bool := true
  reject_receipt_keyword : Bool := true
  allowed_bill_to_names : List String := []
  deriving DecidableEq

/-- Audit metadata attached to every decision (the `metadata` dict). -/
structure Metadata where
  amount : ℚ
  confidence : ℚ
  vendor : Option String
  config : ApprovalRulesConfig
  deriving DecidableEq

/-- The decision record `ApprovalDecision` from the source. -/
structure ApprovalDecision where
  approved : Bool
  reason : String
  checks : List (String × Bool)
  metadata : Metadata
  deriving DecidableEq

/-- Round the fraction `a / b` (with `b > 0`) half to even, the rounding used
by Python number formatting. -/
def roundHalfEvenFrac (a : ℤ) (b : ℕ) : ℤ :=
  let f := Int.fdiv a b
  let r := a - f * b
  if 2 * r < (b : ℤ) then f
  else if (b : ℤ) < 2 * r then f + 1
  else if f % 2 = 0 then f else f + 1

/-- Left-pad a digit string with zeros to width `d`. -/
def padZeros (d : Nat) (s : String) : String :=
  String.mk (List.replicate (d - s.length) '0') ++ s

/-- Fixed-point rendering of the fraction `a / b` with `d` fractional digits. -/
def fmtFixedFrac (d : Nat) (a : ℤ) (b : ℕ) : String :=
  let n := roundHalfEvenFrac (a * 10 ^ d) b
  let sign := if n < 0 then "-" else ""
  let m := n.natAbs
  sign ++ toString (m / 10 ^ d) ++ "." ++ padZeros d (toString (m % 10 ^ d))

/-- Python `f"{q:.2f}"`-style fixed-point formatting with `d` digits. -/
def fmtFixed (d : Nat) (q : ℚ) : String := fmtFixedFrac d q.num q.den

/-- Python `f"{q:.1%}"` percentage formatting. -/
def fmtPct (q : ℚ) : String := fmtFixedFrac 1 (q.num * 100) q.den ++ "%"

/-- A single-quote character as a string. -/
def squote : String := String.singleton (Char.ofNat 39)

/-- Check 1 of `evaluate`: `amount <= config.amount_threshold`. -/
def amount_ok (cfg : ApprovalRulesConfig) (amount : ℚ) : Bool :=
  decide (amount ≤ cfg.amount_threshold)

/-- Check 2 of `evaluate`: `confidence >= config.min_confidence`. -/
def confidence_ok (cfg : ApprovalRulesConfig) (confidence : ℚ) : Bool :=
  decide (cfg.min_confidence ≤ confidence)

/-- Check 5 of `evaluate` (bill-to verification), returning the check's
boolean together with the reason clauses it appends (one on failure). -/
def billToCheck (cfg : ApprovalRulesConfig) (bill_to : Option String) : Bool × List String :=
  if cfg.allowed_bill_to_names.isEmpty then (true, [])
  else if pyFalsy bill_to then (false, ["Bill To field not found on invoice"])
  else
    let b := bill_to.getD ""
    let ok := cfg.allowed_bill_to_names.any fun allowed =>
      containsSub (strLower b) (strLower allowed)
    if ok then (true, [])
    else (false,
      ["Invoice not addressed to authorized company (found: " ++ squote ++ b ++ squote ++ ")"])

/-- The evaluator `InvoiceApprovalRules.evaluate` from the source: the five checks, the
accumulated failure reasons, the final AND of the enforced checks, and the
assembled `ApprovalDecision`. -/
def evaluate (cfg : ApprovalRulesConfig) (amount confidence : ℚ)
    (content vendor bill_to : Option String) : ApprovalDecision :=
  let amountOk := amount_ok cfg amount
  let reasons1 : List String :=
    if amountOk then [] else
      ["Amount $" ++ fmtFixed 2 amount ++ " exceeds limit of $" ++
        fmtFixed 2 cfg.amount_threshold]
  let confidenceOk := confidence_ok cfg confidence
  let reasons2 := reasons1 ++
    (if confidenceOk then [] else
      ["Confidence " ++ fmtPct confidence ++ " below minimum " ++
        fmtPct cfg.min_confidence])
  let doc_type := classify_document_type content
  let is_invoice := decide (doc_type = DocType.invoice)
  let is_receipt := decide (doc_type = DocType.receipt)
  let reasons3 := reasons2 ++
    (if cfg.require_invoice_keyword && !is_invoice then
      (if is_receipt then ["Document classified as receipt (not invoice)"]
       else ["Document type unclear - lacks invoice indicators"])
     else [])
  let reasons4 := reasons3 ++
    (if cfg.reject_receipt_keyword && is_receipt then
      ["Document classified as receipt (not invoice)"] else [])
  let bt := billToCheck cfg bill_to
  let reasons5 := reasons4 ++ bt.2
  let checks : List (String × Bool) :=
    [("amount_within_limit", amountOk),
     ("confidence_sufficient", confidenceOk),
     ("document_type_is_invoice", is_invoice),
     ("document_type_not_receipt", !is_receipt),
     ("bill_to_authorized", bt.1)]
  let all_checks_passed := amountOk && confidenceOk &&
    (if cfg.require_invoice_keyword then is_invoice else true) &&
    (if cfg.reject_receipt_keyword then !is_receipt else true) && bt.1
  let reason :=
    if all_checks_passed then
      "Auto-approved: $" ++ fmtFixed 2 amount ++ ", " ++ fmtPct confidence ++ " confidence"
    else
      "Requires manual review: " ++ joinSep "; " reasons5
  { approved := all_checks_passed
    reason := reason
    checks := checks
    metadata := { amount := amount, confidence := confidence, vendor := vendor, config := cfg } }

/-- Lookup of one named check in a decision's `checks` mapping. -/
def getCheck (d : ApprovalDecision) (k : String) : Option Bool :=
  (d.checks.find? fun p => p.1 == k).map Prod.snd

/-- The failure clauses the spec requires in the reason string: one clause
per failed enforced check, in the fixed check order 1 through 5. -/
def failureClauses (cfg : ApprovalRulesConfig) (amount confidence : ℚ)
    (content bill_to : Option String) : List String :=
  (if amount_ok cfg amount then [] else
    ["Amount $" ++ fmtFixed 2 amount ++ " exceeds limit of $" ++
      fmtFixed 2 cfg.amount_threshold]) ++
  (if confidence_ok cfg confidence then [] else
    ["Confidence " ++ fmtPct confidence ++ " below minimum " ++
      fmtPct cfg.min_confidence]) ++
  (if cfg.require_invoice_keyword && !(decide (classify_document_type content = DocType.invoice)) then
    (if decide (classify_document_type content = DocType.receipt) then
      ["Document classified as receipt (not invoice)"]
     else ["Document type unclear - lacks invoice indicators"])
   else []) ++
  (if cfg.reject_receipt_keyword && decide (classify_document_type content = DocType.receipt) then
    ["Document classified as receipt (not invoice)"] else []) ++
  (billToCheck cfg bill_to).2

/-! ### Helper lemmas about the embedding -/

theorem evaluate_approved_def (cfg : ApprovalRulesConfig) (amount confidence : ℚ)
    (content vendor bill_to : Option String) :
    (evaluate cfg amount confidence content vendor bill_to).approved =
      (amount_ok cfg amount && confidence_ok cfg confidence &&
        (if cfg.require_invoice_keyword then
          decide (classify_document_type content = DocType.invoice) else true) &&
        (if cfg.reject_receipt_keyword then
          !decide (classify_document_type content = DocType.receipt) else true) &&
        (billToCheck cfg bill_to).1) := rfl

theorem evaluate_checks_def (cfg : ApprovalRulesConfig) (amount confidence : ℚ)
    (content vendor bill_to : Option String) :
    (evaluate cfg amount confidence content vendor bill_to).checks =
      [("amount_within_limit", amount_ok cfg amount),
       ("confidence_sufficient", confidence_ok cfg confidence),
       ("document_type_is_invoice", decide (classify_document_type content = DocType.invoice)),
       ("document_type_not_receipt", !decide (classify_document_type content = DocType.receipt)),
       ("bill_to_authorized", (billToCheck cfg bill_to).1)] := rfl

theorem getCheck_amount (cfg : ApprovalRulesConfig) (amount confidence : ℚ)
    (content vendor bill_to : Option String) :
    getCheck (evaluate cfg amount confidence content vendor bill_to) "amount_within_limit" =
      some (amount_ok cfg amount) := rfl

theorem getCheck_confidence (cfg : ApprovalRulesConfig) (amount confidence : ℚ)
    (content vendor bill_to : Option String) :
    getCheck (evaluate cfg amount confidence content vendor bill_to) "confidence_sufficient" =
      some (confidence_ok cfg confidence) := rfl

theorem getCheck_doc_invoice (cfg : ApprovalRulesConfig) (amount confidence : ℚ)
    (content vendor bill_to : Option String) :
    getCheck (evaluate cfg amount confidence content vendor bill_to) "document_type_is_invoice" =
      some (decide (classify_document_type content = DocType.invoice)) := rfl

theorem getCheck_doc_receipt (cfg : ApprovalRulesConfig) (amount confidence : ℚ)
    (content vendor bill_to : Option String) :
    getCheck (evaluate cfg amount confidence content vendor bill_to) "document_type_not_receipt" =
      some (!decide (classify_document_type content = DocType.receipt)) := rfl

theorem getCheck_bill_to (cfg : ApprovalRulesConfig) (amount confidence : ℚ)
    (content vendor bill_to : Option String) :
    getCheck (evaluate cfg amount confidence content vendor bill_to) "bill_to_authorized" =
      some (billToCheck cfg bill_to).1 := rfl

theorem listStartsWith_self (l : List Char) : listStartsWith l l = true := by
  induction l with
  | nil => rfl
  | cons a as ih => simp [listStartsWith, ih]

theorem listContainsSub_self (l : List Char) : listContainsSub l l = true := by
  cases l with
  | nil => rfl
  | cons a as => simp [listContainsSub, listStartsWith_self]

theorem listContainsSub_append (p s : List Char) : listContainsSub (p ++ s) s = true := by
  induction p with
  | nil => simpa using listContainsSub_self s
  | cons a as ih =>
    show (listStartsWith (a :: (as ++ s)) s || listContainsSub (as ++ s) s) = true
    rw [ih, Bool.or_true]

theorem containsSub_append_right (p c : String) : containsSub (p ++ c) c = true := by
  have h : (p ++ c).toList = p.toList ++ c.toList := by
    simp [String.toList, String.data_append]
  rw [containsSub, h]
  exact listContainsSub_append _ _

theorem joinSep_append_last (sep : String) (l : List String) (c : String) :
    ∃ p, joinSep sep (l ++ [c]) = p ++ c := by
  induction l with
  | nil => exact ⟨"", by simp [joinSep]⟩
  | cons x xs ih =>
    cases xs with
    | nil => exact ⟨x ++ sep, by simp [joinSep, String.append_assoc]⟩
    | cons y ys =>
      obtain ⟨p, hp⟩ := ih
      refine ⟨x ++ sep ++ p, ?_⟩
      show x ++ sep ++ joinSep sep ((y :: ys) ++ [c]) = x ++ sep ++ p ++ c
      rw [hp, String.append_assoc, String.append_assoc, String.append_assoc]

theorem billToCheck_some_empty (cfg : ApprovalRulesConfig) :
    billToCheck cfg (some "") = billToCheck cfg none := rfl

theorem billToCheck_falsy (cfg : ApprovalRulesConfig) (bill_to : Option String)
    (hl : cfg.allowed_bill_to_names ≠ []) (hf : pyFalsy bill_to = true) :
    billToCheck cfg bill_to = (false, ["Bill To field not found on invoice"]) := by
  rw [billToCheck]
  simp [List.isEmpty_eq_false.mpr hl, hf]

/-! ### Claims -/

/-- C1 counterexample: with `require_invoice_keyword` disabled and an
unclassifiable document, `evaluate` approves while the `checks` mapping still
contains `document_type_is_invoice = false`, so `approved` is not equivalent
to "every boolean in `checks` is true" for every config. -/
theorem approved_without_all_checks_true :
    (evaluate { require_invoice_keyword := false } 0 1 none none none).approved = true ∧
    ("document_type_is_invoice", false) ∈
      (evaluate { require_invoice_keyword := false } 0 1 none none none).checks := by
  decide

/-- C1 (amended): for every input, and every config whose
`require_invoice_keyword` and `reject_receipt_keyword` flags are both true
(in particular the default config), the Decision has `approved = true` iff
every boolean value in its `checks` mapping is true. -/
theorem approved_iff_all_checks (cfg : ApprovalRulesConfig) (amount confidence : ℚ)
    (content vendor bill_to : Option String)
    (hri : cfg.require_invoice_keyword = true) (hrr : cfg.reject_receipt_keyword = true) :
    (evaluate cfg amount confidence content vendor bill_to).approved = true ↔
      ∀ p ∈ (evaluate cfg amount confidence content vendor bill_to).checks, p.2 = true := by
  simp only [evaluate_approved_def, evaluate_checks_def, hri, hrr, if_true,
    List.forall_mem_cons, Bool.and_eq_true, List.not_mem_nil]
  simp
  tauto

theorem approved_iff_all_checks_witness :
    ((evaluate {} 0 1 none none none).approved = true ↔
      ∀ p ∈ (evaluate {} 0 1 none none none).checks, p.2 = true) :=
  approved_iff_all_checks {} 0 1 none none none rfl rfl

/-- C2: `approved` is true exactly when all enforced checks pass:
`amount_within_limit`, `confidence_sufficient` and `bill_to_authorized`
always count, the two document-type checks only when the corresponding
config flag is enabled. -/
theorem approved_iff_enforced_checks (cfg : ApprovalRulesConfig) (amount confidence : ℚ)
    (content vendor bill_to : Option String) :
    (evaluate cfg amount confidence content vendor bill_to).approved = true ↔
      (getCheck (evaluate cfg amount confidence content vendor bill_to)
          "amount_within_limit" = some true ∧
       getCheck (evaluate cfg amount confidence content vendor bill_to)
          "confidence_sufficient" = some true ∧
       getCheck (evaluate cfg amount confidence content vendor bill_to)
          "bill_to_authorized" = some true ∧
       (cfg.require_invoice_keyword = true →
         getCheck (evaluate cfg amount confidence content vendor bill_to)
            "document_type_is_invoice" = some true) ∧
       (cfg.reject_receipt_keyword = true →
         getCheck (evaluate cfg amount confidence content vendor bill_to)
            "document_type_not_receipt" = some true)) := by
  simp only [evaluate_approved_def, getCheck_amount, getCheck_confidence, getCheck_bill_to,
    getCheck_doc_invoice, getCheck_doc_receipt, Option.some.injEq, Bool.and_eq_true]
  cases cfg.require_invoice_keyword <;> cases cfg.reject_receipt_keyword <;> simp <;> tauto

theorem approved_iff_enforced_checks_witness :
    (evaluate {} 450 (mkRat 92 100) (some "invoice\ndue date") none none).approved = true :=
  (approved_iff_enforced_checks {} 450 (mkRat 92 100) (some "invoice\ndue date") none none).mpr
    ⟨by decide, by decide, by decide, fun _ => by decide, fun _ => by decide⟩

/-- C3: classification returns `unknown` on empty or absent text, and
otherwise thresholds the computed integer score of the lower-cased text:
`invoice` iff the score is strictly greater than 2, `receipt` iff it is
strictly less than -2, `unknown` otherwise. -/
theorem classify_spec (text : Option String) :
    ((text = none ∨ text = some "") → classify_document_type text = DocType.unknown) ∧
    (∀ s, text = some s → s ≠ "" →
      ((classify_document_type text = DocType.invoice ↔ 2 < scoreText (strLower s)) ∧
       (classify_document_type text = DocType.receipt ↔ scoreText (strLower s) < -2) ∧
       (classify_document_type text = DocType.unknown ↔
         (scoreText (strLower s) ≤ 2 ∧ -2 ≤ scoreText (strLower s))))) := by
  constructor
  · rintro (rfl | rfl) <;> rfl
  · rintro s rfl hs
    have hf : pyFalsy (some s) = false := by
      cases h : s.isEmpty
      · simp [pyFalsy, h]
      · exact absurd ((String.isEmpty_iff s).mp (by simp [h])) hs
    rw [classify_document_type, hf]
    simp only [Bool.false_eq_true, if_false, Option.getD_some]
    split_ifs with h1 h2 <;> simp_all
    omega

theorem classify_spec_witness :
    classify_document_type (some "") = DocType.unknown ∧
    (classify_document_type (some "due date") = DocType.invoice ↔
      2 < scoreText (strLower "due date")) :=
  ⟨(classify_spec (some "")).1 (Or.inr rfl),
   ((classify_spec (some "due date")).2 "due date" rfl (by decide)).1⟩

/-- C4: the amount and confidence checks are the inclusive comparisons
`amount ≤ threshold` and `confidence ≥ min_confidence`; in particular an
amount exactly at the threshold and a confidence exactly at the minimum
both pass. -/
theorem amount_confidence_checks (cfg : ApprovalRulesConfig) (amount confidence : ℚ)
    (content vendor bill_to : Option String) :
    (getCheck (evaluate cfg amount confidence content vendor bill_to)
        "amount_within_limit" = some (decide (amount ≤ cfg.amount_threshold))) ∧
    (getCheck (evaluate cfg amount confidence content vendor bill_to)
        "confidence_sufficient" = some (decide (cfg.min_confidence ≤ confidence))) ∧
    (amount = cfg.amount_threshold →
      getCheck (evaluate cfg amount confidence content vendor bill_to)
        "amount_within_limit" = some true) ∧
    (confidence = cfg.min_confidence →
      getCheck (evaluate cfg amount confidence content vendor bill_to)
        "confidence_sufficient" = some true) := by
  refine ⟨rfl, rfl, ?_, ?_⟩
  · rintro rfl
    simp [getCheck_amount, amount_ok]
  · rintro rfl
    simp [getCheck_confidence, confidence_ok]

theorem amount_confidence_checks_witness :
    getCheck (evaluate {} 500 1 none none none) "amount_within_limit" = some true ∧
    getCheck (evaluate {} 500 (mkRat 85 100) none none none) "confidence_sufficient" = some true :=
  ⟨(amount_confidence_checks {} 500 1 none none none).2.2.1 rfl,
   (amount_confidence_checks {} 500 (mkRat 85 100) none none none).2.2.2 rfl⟩

/-- C5 counterexample: with the non-empty whitelist `[""]` and the present
but empty `bill_to = some ""`, the empty whitelist entry is a substring of
the bill-to value, yet the check evaluates to false (the code's falsiness
test sends the empty string down the "field not found" branch), so the
claimed substring characterisation fails for present-but-empty bill-to. -/
theorem bill_to_empty_string_cex :
    (([""] : List String) ≠ []) ∧
    containsSub (strLower "") (strLower "") = true ∧
    getCheck (evaluate { allowed_bill_to_names := [""] } 0 1 none none (some ""))
      "bill_to_authorized" = some false := by
  decide

/-- C5 (amended): `bill_to_authorized` always passes when the whitelist is
empty (even with absent bill-to); with a non-empty whitelist it fails when
`bill_to` is absent **or the empty string** (Python falsiness), and for a
non-empty bill-to value it passes iff at least one whitelist entry is a
case-insensitive substring of it. -/
theorem bill_to_authorized_spec (cfg : ApprovalRulesConfig) (amount confidence : ℚ)
    (content vendor bill_to : Option String) :
    (cfg.allowed_bill_to_names = [] →
      getCheck (evaluate cfg amount confidence content vendor bill_to)
        "bill_to_authorized" = some true) ∧
    (cfg.allowed_bill_to_names ≠ [] → pyFalsy bill_to = true →
      getCheck (evaluate cfg amount confidence content vendor bill_to)
        "bill_to_authorized" = some false) ∧
    (cfg.allowed_bill_to_names ≠ [] → ∀ s, bill_to = some s → s ≠ "" →
      (getCheck (evaluate cfg amount confidence content vendor bill_to)
          "bill_to_authorized" = some true ↔
        ∃ a ∈ cfg.allowed_bill_to_names,
          containsSub (strLower s) (strLower a) = true)) := by
  refine ⟨?_, ?_, ?_⟩
  · intro hl
    rw [getCheck_bill_to, billToCheck]
    simp [hl]
  · intro hl hf
    rw [getCheck_bill_to, billToCheck_falsy cfg bill_to hl hf]
  · rintro hl s rfl hs
    have hf : pyFalsy (some s) = false := by
      cases h : s.isEmpty
      · simp [pyFalsy, h]
      · exact absurd ((String.isEmpty_iff s).mp (by simp [h])) hs
    rw [getCheck_bill_to, billToCheck]
    simp only [List.isEmpty_eq_false.mpr hl, Bool.false_eq_true, if_false, hf,
      Option.getD_some]
    rw [← List.any_eq_true]
    cases hok : cfg.allowed_bill_to_names.any fun a => containsSub (strLower s) (strLower a) <;>
      simp [hok]

theorem bill_to_authorized_spec_witness :
    getCheck (evaluate {} 0 1 none none none) "bill_to_authorized" = some true ∧
    getCheck (evaluate { allowed_bill_to_names := ["acme"] } 0 1 none none none)
      "bill_to_authorized" = some false ∧
    (getCheck (evaluate { allowed_bill_to_names := ["acme"] } 0 1 none none
        (some "ACME Industries Inc")) "bill_to_authorized" = some true ↔
      ∃ a ∈ ["acme"], containsSub (strLower "ACME Industries Inc") (strLower a) = true) :=
  ⟨(bill_to_authorized_spec {} 0 1 none none none).1 rfl,
   (bill_to_authorized_spec { allowed_bill_to_names := ["acme"] } 0 1 none none none).2.1
     (by decide) rfl,
   (bill_to_authorized_spec { allowed_bill_to_names := ["acme"] } 0 1 none none
       (some "ACME Industries Inc")).2.2 (by decide) "ACME Industries Inc" rfl (by decide)⟩

/-- C6: the `checks` mapping has exactly the five fixed keys in order, and
the two document-type booleans always reflect the classifier's result, also
when their enforcement flags are disabled (the statement quantifies over
every config). -/
theorem checks_key_set (cfg : ApprovalRulesConfig) (amount confidence : ℚ)
    (content vendor bill_to : Option String) :
    ((evaluate cfg amount confidence content vendor bill_to).checks.map Prod.fst =
      ["amount_within_limit", "confidence_sufficient", "document_type_is_invoice",
       "document_type_not_receipt", "bill_to_authorized"]) ∧
    (getCheck (evaluate cfg amount confidence content vendor bill_to)
        "document_type_is_invoice" =
      some (decide (classify_document_type content = DocType.invoice))) ∧
    (getCheck (evaluate cfg amount confidence content vendor bill_to)
        "document_type_not_receipt" =
      some (!decide (classify_document_type content = DocType.receipt))) :=
  ⟨rfl, rfl, rfl⟩

/-- C7: `classify_document_type` and `evaluate` are deterministic pure
functions: identical arguments yield identical results (including reason,
checks and metadata). -/
theorem classify_evaluate_deterministic (t₁ t₂ : Option String)
    (cfg₁ cfg₂ : ApprovalRulesConfig) (a₁ a₂ c₁ c₂ : ℚ)
    (ct₁ ct₂ v₁ v₂ b₁ b₂ : Option String)
    (ht : t₁ = t₂) (hcfg : cfg₁ = cfg₂) (ha : a₁ = a₂) (hc : c₁ = c₂)
    (hct : ct₁ = ct₂) (hv : v₁ = v₂) (hb : b₁ = b₂) :
    classify_document_type t₁ = classify_document_type t₂ ∧
    evaluate cfg₁ a₁ c₁ ct₁ v₁ b₁ = evaluate cfg₂ a₂ c₂ ct₂ v₂ b₂ := by
  subst ht hcfg ha hc hct hv hb
  exact ⟨rfl, rfl⟩

theorem containsSub_reason (pre : String) (l : List String) (c : String) :
    containsSub (pre ++ joinSep "; " (l ++ [c])) c = true := by
  obtain ⟨p, hp⟩ := joinSep_append_last "; " l c
  rw [hp, ← String.append_assoc]
  exact containsSub_append_right _ _

/-- C8: an approved decision's reason is the positive summary carrying the
formatted amount and confidence percentage; a non-approved decision's reason
is the "Requires manual review: " marker followed by one clause per failed
enforced check, in the fixed check order, joined by "; ". -/
theorem reason_structure (cfg : ApprovalRulesConfig) (amount confidence : ℚ)
    (content vendor bill_to : Option String) :
    ((evaluate cfg amount confidence content vendor bill_to).approved = true →
      (evaluate cfg amount confidence content vendor bill_to).reason =
        "Auto-approved: $" ++ fmtFixed 2 amount ++ ", " ++ fmtPct confidence ++
          " confidence") ∧
    ((evaluate cfg amount confidence content vendor bill_to).approved = false →
      (evaluate cfg amount confidence content vendor bill_to).reason =
        "Requires manual review: " ++
          joinSep "; " (failureClauses cfg amount confidence content bill_to)) := by
  constructor <;> intro h <;> rw [evaluate_approved_def] at h <;>
    simp only [evaluate, failureClauses, h, List.append_assoc] <;> simp [h]

theorem reason_structure_witness :
    (evaluate {} 450 (mkRat 92 100) (some "invoice\ndue date") none none).reason =
      "Auto-approved: $" ++ fmtFixed 2 450 ++ ", " ++ fmtPct (mkRat 92 100) ++
        " confidence" :=
  (reason_structure {} 450 (mkRat 92 100) (some "invoice\ndue date") none none).1 (by decide)

/-- C9: a text carrying the literal word "invoice" together with the strong
confirmation cues "amount paid", "payment received", "direct debit" and the
zero-balance marker "$0.00" classifies as `receipt`. -/
theorem receipt_cues_override_invoice_label :
    classify_document_type
      (some "INVOICE\nAmount Paid: $500\nPayment received via direct debit\nBalance: $0.00") =
      DocType.receipt ∧
    containsSub (strLower
      "INVOICE\nAmount Paid: $500\nPayment received via direct debit\nBalance: $0.00")
      "invoice" = true ∧
    containsSub (strLower
      "INVOICE\nAmount Paid: $500\nPayment received via direct debit\nBalance: $0.00")
      "amount paid" = true ∧
    containsSub (strLower
      "INVOICE\nAmount Paid: $500\nPayment received via direct debit\nBalance: $0.00")
      "payment received" = true ∧
    containsSub (strLower
      "INVOICE\nAmount Paid: $500\nPayment received via direct debit\nBalance: $0.00")
      "direct debit" = true ∧
    containsSub (strLower
      "INVOICE\nAmount Paid: $500\nPayment received via direct debit\nBalance: $0.00")
      "$0.00" = true := by
  decide

/-- C10: with a non-empty whitelist, a present-but-empty `bill_to` behaves
exactly like an absent one: the whole Decision coincides with the absent
case, `bill_to_authorized` is false, and the reason carries the
"Bill To field not found on invoice" clause. -/
theorem empty_bill_to_like_absent (cfg : ApprovalRulesConfig) (amount confidence : ℚ)
    (content vendor : Option String) (hl : cfg.allowed_bill_to_names ≠ []) :
    evaluate cfg amount confidence content vendor (some "") =
      evaluate cfg amount confidence content vendor none ∧
    getCheck (evaluate cfg amount confidence content vendor (some ""))
      "bill_to_authorized" = some false ∧
    containsSub (evaluate cfg amount confidence content vendor (some "")).reason
      "Bill To field not found on invoice" = true := by
  have hbt : billToCheck cfg (some "") = (false, ["Bill To field not found on invoice"]) :=
    billToCheck_falsy cfg (some "") hl rfl
  refine ⟨rfl, ?_, ?_⟩
  · rw [getCheck_bill_to, hbt]
  · simp only [evaluate, hbt, Bool.and_false]
    simp only [Bool.false_eq_true, if_false]
    exact containsSub_reason _ _ _

theorem empty_bill_to_like_absent_witness :
    evaluate { allowed_bill_to_names := ["acme"] } 0 1 none none (some "") =
      evaluate { allowed_bill_to_names := ["acme"] } 0 1 none none none ∧
    getCheck (evaluate { allowed_bill_to_names := ["acme"] } 0 1 none none (some ""))
      "bill_to_authorized" = some false ∧
    containsSub (evaluate { allowed_bill_to_names := ["acme"] } 0 1 none none
      (some "")).reason "Bill To field not found on invoice" = true :=
  empty_bill_to_like_absent { allowed_bill_to_names := ["acme"] } 0 1 none none (by decide)

theorem classify_evaluate_deterministic_witness :
    classify_document_type (some "invoice") = classify_document_type (some "invoice") ∧
    evaluate {} 1 1 (some "invoice") none none = evaluate {} 1 1 (some "invoice") none none :=
  classify_evaluate_deterministic (some "invoice") (some "invoice") {} {} 1 1 1 1
    (some "invoice") (some "invoice") none none none none rfl rfl rfl rfl rfl rfl rfl

end AdlM365
